import Mathlib

/-!
Verification development for the swing-trading order-lifecycle engine:
a shallow embedding, over exact rational arithmetic, of the pure core of
`src/core/profit_calculator.py`, `src/core/order_validator.py`,
`src/core/order_manager.py` and `src/core/price_manager.py`, together with
theorems settling the stated properties of those functions.
-/

namespace SwingTrading

/-! ### Configuration constants (src/config/settings.py, default values) -/

/-- `MIN_PROFIT_PERCENTAGE` default: `float(os.getenv("MIN_PROFIT_PERCENTAGE", "0.3"))`. -/
def MIN_PROFIT_PERCENTAGE : ℚ := 3/10

/-- `MAX_SELL_VALUE_USDC` default: `float(os.getenv("MAX_SELL_VALUE_USDC", "100"))`. -/
def MAX_SELL_VALUE_USDC : ℚ := 100

/-- `TRADING_SYMBOL` default: `os.getenv("TRADING_SYMBOL", "TRUMPUSDC")`. -/
def TRADING_SYMBOL : String := "TRUMPUSDC"

/-- `WEBSOCKET_RECONNECT_TIMEOUT` default 900 seconds (15 minutes). -/
def WEBSOCKET_RECONNECT_TIMEOUT : ℚ := 900

/-- `WEBSOCKET_INITIAL_RETRY_DELAY` default 1 second. -/
def WEBSOCKET_INITIAL_RETRY_DELAY : ℚ := 1

/-! ### src/core/profit_calculator.py

Python floats are embedded as exact rationals; `raise ValueError` is embedded
as `Except.error`. The fee literal `0.001` is `1/1000`, the rounding-guard
factor `1.00001` is `100001/100000`. `calculate_min_sell_price` reads the
module-level setting `MIN_PROFIT_PERCENTAGE`; the embedding passes that
configured value as an explicit first argument. -/

/-- Embedding of `calculate_min_sell_price(buy_price, quantity)`
(src/core/profit_calculator.py lines 15-77). -/
def calculate_min_sell_price (min_profit_percentage buy_price quantity : ℚ) :
    Except String ℚ :=
  if buy_price ≤ 0 then .error "Buy price must be positive"
  else if quantity ≤ 0 then .error "Quantity must be positive"
  else
    let buy_cost := buy_price * quantity
    let buy_fee := buy_cost * (1/1000)
    let total_buy_cost := buy_cost + buy_fee
    let required_profit := buy_cost * (min_profit_percentage / 100)
    let required_amount := total_buy_cost + required_profit
    let final_sell_price := required_amount / (quantity * (1 - 1/1000))
    let sell_amount := final_sell_price * quantity * (1 - 1/1000)
    if sell_amount < total_buy_cost + required_profit then
      .ok (final_sell_price * (100001/100000))
    else
      .ok final_sell_price

/-- Embedding of `calculate_net_profit(buy_price, sell_price, quantity)`
(src/core/profit_calculator.py lines 118-161). -/
def calculate_net_profit (buy_price sell_price quantity : ℚ) : Except String ℚ :=
  if buy_price ≤ 0 ∨ sell_price ≤ 0 ∨ quantity ≤ 0 then
    .error "All inputs must be positive"
  else
    let buy_cost := buy_price * quantity
    let buy_fee := buy_cost * (1/1000)
    let total_buy_cost := buy_cost + buy_fee
    let sell_amount := sell_price * quantity
    let sell_fee := sell_amount * (1/1000)
    let total_sell_amount := sell_amount - sell_fee
    .ok (total_sell_amount - total_buy_cost)

/-- Embedding of `validate_order_size(price, quantity)`
(src/core/profit_calculator.py lines 79-116). The interpolated numbers of the
error message are omitted; the cap comparison is strict (`order_value >
MAX_SELL_VALUE_USDC`). -/
def validate_order_size (price quantity : ℚ) : Bool × Option String :=
  if price ≤ 0 then (false, some "Price must be positive")
  else if quantity ≤ 0 then (false, some "Quantity must be positive")
  else if price * quantity > MAX_SELL_VALUE_USDC then
    (false, some "Order value exceeds maximum allowed")
  else (true, none)

/-! ### src/db/models.py — OrderStatus

`class OrderStatus(str, Enum)` has exactly the members OPEN, FILLED,
CANCELLED, PARTIALLY_FILLED, REJECTED, EXPIRED. There is no member `NEW`
and no member `CANCELED` (one L): accessing either raises `AttributeError`. -/

/-- The members of `models.OrderStatus`. -/
inductive OrderStatus where
  | OPEN
  | FILLED
  | CANCELLED
  | PARTIALLY_FILLED
  | REJECTED
  | EXPIRED
deriving DecidableEq, BEq, Repr

/-- Python attribute access `OrderStatus.<name>`: returns the member, or
raises `AttributeError` when no member of that name exists. -/
def OrderStatus.attr (name : String) : Except String OrderStatus :=
  match name with
  | "OPEN" => .ok .OPEN
  | "FILLED" => .ok .FILLED
  | "CANCELLED" => .ok .CANCELLED
  | "PARTIALLY_FILLED" => .ok .PARTIALLY_FILLED
  | "REJECTED" => .ok .REJECTED
  | "EXPIRED" => .ok .EXPIRED
  | _ => .error ("AttributeError: " ++ name)

/-- Python item access `OrderStatus[name]` (lookup by member name): same
member table, but a failed lookup raises `KeyError`. -/
def OrderStatus.item (name : String) : Except String OrderStatus :=
  match name with
  | "OPEN" => .ok .OPEN
  | "FILLED" => .ok .FILLED
  | "CANCELLED" => .ok .CANCELLED
  | "PARTIALLY_FILLED" => .ok .PARTIALLY_FILLED
  | "REJECTED" => .ok .REJECTED
  | "EXPIRED" => .ok .EXPIRED
  | _ => .error ("KeyError: " ++ name)

/-- A row of the `orders` table as the validator consumes it
(src/db/models.py; `status` is stored as a string, `filled_quantity` may be
unset, in which case the validator substitutes 0). -/
structure Order where
  binance_order_id : String
  symbol : String
  side : String
  price : ℚ
  quantity : ℚ
  status : String
  filled_quantity : Option ℚ
deriving DecidableEq, Repr

/-! ### src/core/order_manager.py — state-transition table -/

/-- The pairs `(t.value[0], t.value[1])` of the `OrderTransition` enum
(src/core/order_manager.py lines 53-60). Note there is no
`('OPEN', 'EXPIRED')` entry. -/
def OrderTransition : List (String × String) :=
  [("OPEN", "PARTIALLY_FILLED"),
   ("OPEN", "FILLED"),
   ("OPEN", "CANCELLED"),
   ("OPEN", "REJECTED"),
   ("PARTIALLY_FILLED", "FILLED"),
   ("PARTIALLY_FILLED", "CANCELLED")]

/-- Embedding of `OrderManager._validate_state_transition(current, new)`
(src/core/order_manager.py lines 515-561): the NEW/OPEN equivalence special
case, then membership in the `OrderTransition` pairs. The body cannot raise,
so the `except` branch returning False is dead. -/
def validate_state_transition (current_status new_status : String) : Bool :=
  if (current_status = "NEW" ∧ new_status = "OPEN") ∨
     (current_status = "OPEN" ∧ new_status = "NEW") then
    true
  else
    decide ((current_status, new_status) ∈ OrderTransition)

/-! ### src/core/order_validator.py

`_is_valid_status_transition` (lines 168-187) builds a dict literal whose
keys and value lists are written `OrderStatus.NEW`, `OrderStatus.CANCELED`,
etc. Evaluating the literal accesses the enum members in source order, and
the very first access, `OrderStatus.NEW` (line 171), raises `AttributeError`
because `models.OrderStatus` has no such member. The embedding performs the
accesses in the same order. -/

/-- Embedding of `_is_valid_status_transition(current_status, new_status)`
(src/core/order_validator.py lines 168-187). -/
def is_valid_status_transition (current_status new_status : String) :
    Except String Bool := do
  let k1 ← OrderStatus.attr "NEW"
  let v11 ← OrderStatus.attr "PARTIALLY_FILLED"
  let v12 ← OrderStatus.attr "FILLED"
  let v13 ← OrderStatus.attr "CANCELED"
  let v14 ← OrderStatus.attr "REJECTED"
  let k2 ← OrderStatus.attr "PARTIALLY_FILLED"
  let v21 ← OrderStatus.attr "PARTIALLY_FILLED"
  let v22 ← OrderStatus.attr "FILLED"
  let v23 ← OrderStatus.attr "CANCELED"
  let k3 ← OrderStatus.attr "FILLED"
  let k4 ← OrderStatus.attr "CANCELED"
  let k5 ← OrderStatus.attr "REJECTED"
  let valid_transitions : List (OrderStatus × List OrderStatus) :=
    [(k1, [v11, v12, v13, v14]), (k2, [v21, v22, v23]), (k3, []), (k4, []), (k5, [])]
  let nw ← OrderStatus.item new_status
  let cur ← OrderStatus.item current_status
  pure (((valid_transitions.lookup cur).getD ([] : List OrderStatus)).contains nw)

/-- Embedding of `validate_order_update(order, new_status, filled_quantity,
average_price)` (src/core/order_validator.py lines 74-109). The interpolated
numbers of the error messages are omitted. -/
def validate_order_update (order : Order) (new_status : String)
    (filled_quantity average_price : Option ℚ) :
    Except String (Bool × Option String) := do
  let ok ← is_valid_status_transition order.status new_status
  if ok = false then
    return (false, some ("Invalid status transition from " ++ order.status ++
      " to " ++ new_status))
  match filled_quantity with
  | some fq =>
    if fq < 0 then
      return (false, some "Fill quantity cannot be negative")
    if fq > order.quantity then
      return (false, some "Fill quantity exceeds order quantity")
    if fq < order.filled_quantity.getD 0 then
      return (false, some "Fill quantity cannot decrease")
    match average_price with
    | some ap =>
      if ap ≤ 0 then
        return (false, some "Average price must be positive")
      return (true, none)
    | none => return (true, none)
  | none =>
    match average_price with
    | some ap =>
      if ap ≤ 0 then
        return (false, some "Average price must be positive")
      return (true, none)
    | none => return (true, none)

/-- The generator expression of `validate_sell_order_placement` lines
140-143: `sum(o.quantity for o in existing_sell_orders.values() if o.status
!= OrderStatus.CANCELED)`. Evaluating the filter clause for the first element
accesses `OrderStatus.CANCELED`, which does not exist, so with a non-empty
collection the sum raises `AttributeError`. -/
def nonCancelledSellQty : List Order → Except String ℚ
  | [] => .ok 0
  | o :: rest => do
    let canceled ← OrderStatus.attr "CANCELED"
    let s ← nonCancelledSellQty rest
    if o.status ≠ (match canceled with
        | .OPEN => "OPEN" | .FILLED => "FILLED" | .CANCELLED => "CANCELLED"
        | .PARTIALLY_FILLED => "PARTIALLY_FILLED" | .REJECTED => "REJECTED"
        | .EXPIRED => "EXPIRED") then
      return o.quantity + s
    else
      return s

/-- Embedding of `validate_sell_order_placement(buy_order, sell_quantity,
current_price, existing_sell_orders)` (src/core/order_validator.py lines
111-166). `existing_sell_orders` is the list of values of the optional map;
`None` and the empty dict are both falsy, hence both embed to `[]`. -/
def validate_sell_order_placement (buy_order : Order)
    (sell_quantity current_price : ℚ) (existing_sell_orders : List Order) :
    Except String (Bool × Option String) := do
  if ¬ (buy_order.status = "PARTIALLY_FILLED" ∨ buy_order.status = "FILLED") then
    return (false, some "Cannot place SELL order for BUY order in this status")
  let filled_quantity := buy_order.filled_quantity.getD 0
  if sell_quantity > filled_quantity then
    return (false, some "Sell quantity exceeds filled quantity")
  if existing_sell_orders ≠ [] then
    let existing_sell_qty ← nonCancelledSellQty existing_sell_orders
    if existing_sell_qty + sell_quantity > filled_quantity then
      return (false, some "Total sell quantity would exceed filled quantity")
  if current_price * sell_quantity > MAX_SELL_VALUE_USDC then
    return (false, some "Sell order value exceeds maximum allowed")
  return (true, none)

/-- Embedding of `validate_new_order(symbol, side, quantity, price,
related_order_id)` (src/core/order_validator.py lines 18-72). The size check
multiplies `Decimal(str(price))` by `Decimal(str(quantity))`; over exact
rationals that is `price * quantity`. Python truthiness of
`related_order_id` makes both `None` and the empty string falsy. -/
def validate_new_order (symbol side : String) (quantity price : ℚ)
    (related_order_id : Option String) : Bool × Option String :=
  if symbol ≠ TRADING_SYMBOL then
    (false, some "Invalid symbol")
  else if ¬ (side = "BUY" ∨ side = "SELL") then
    (false, some "Invalid side, must be BUY or SELL")
  else if price ≤ 0 then
    (false, some "Price must be positive")
  else if quantity ≤ 0 then
    (false, some "Quantity must be positive")
  else if price * quantity > MAX_SELL_VALUE_USDC then
    (false, some "Order value exceeds maximum allowed")
  else if side = "SELL" ∧ related_order_id.getD "" = "" then
    (false, some "SELL orders must have a related BUY order")
  else
    (true, none)

/-! ### src/core/order_manager.py — order-update processing -/

/-- The fields of an extracted order update consumed by
`OrderManager._process_order_update` (src/core/order_manager.py lines
355-417 produce them, lines 419-513 consume them). -/
structure OrderDetails where
  order_id : String
  side : String
  status : String
  symbol : String
  quantity : ℚ
  filled : ℚ
  price : ℚ
deriving DecidableEq, Repr

/-- The action `_process_order_update` takes on the stored order state. -/
inductive ProcessAction where
  /-- The transition-validation guard logged an error and returned without
  touching the store. -/
  | rejectInvalidTransition
  /-- No stored order and an initiating status: `state_manager.create_order`
  is reached. -/
  | createOrder
  /-- A stored order exists: `state_manager.update_order` is reached with
  the event's status and cumulative filled quantity. -/
  | updateOrder
  /-- No stored order and a non-initiating status: neither branch runs. -/
  | drop
deriving DecidableEq, Repr

/-- The attribute names available on the `StateManager` instance that
`main.py` wires into `OrderManager.state_manager`
(src/core/state_manager.py): the attributes its `__init__` assigns (lines
25-46) and its method definitions. There is no `get_order_by_id`, no
`create_order` and no `update_order`. -/
def stateManagerAttrs : List String :=
  ["price_manager", "order_manager", "logger", "should_run",
   "state_check_interval", "monitor_thread",
   "start", "stop", "update_state", "_reconcile_state", "_monitor_state",
   "_get_current_state", "_handle_shutdown", "_cleanup",
   "get_system_summary", "is_healthy"]

/-- Python attribute access on the wired `StateManager` instance. -/
def stateManagerAttr (name : String) : Except String Unit :=
  if stateManagerAttrs.contains name then .ok ()
  else .error ("AttributeError: StateManager object has no attribute " ++ name)

/-- Embedding of `OrderManager._process_order_update(db, details)`
(src/core/order_manager.py lines 419-513) against the `StateManager` wired
in by `main.py`. Its first statement (line 422) evaluates
`self.state_manager.get_order_by_id`; the wired `StateManager` defines no
such method, so the access raises `AttributeError` before the dispatch below
ever runs, and the caller `handle_order_update` (lines 331-346) rolls the
savepoint back and logs the error. The `stored` parameter is the order row
the lookup would have returned; the dispatch on it (lines 425-488) is kept
so the source's guard structure stays visible — the transition guard runs
only when a stored order exists and the event's status differs from the
stored status, and the create/update branches reach
`state_manager.create_order` (line 452) and `state_manager.update_order`
(line 474), which the wired `StateManager` does not define either. -/
def process_order_update (stored : Option Order) (details : OrderDetails) :
    Except String ProcessAction := do
  let _ ← stateManagerAttr "get_order_by_id"
  match stored with
  | some o =>
    if details.status ≠ o.status ∧
        validate_state_transition o.status details.status = false then
      pure .rejectInvalidTransition
    else do
      let _ ← stateManagerAttr "update_order"
      pure .updateOrder
  | none =>
    if details.status ∈ ["NEW", "PARTIALLY_FILLED", "OPEN"] then do
      let _ ← stateManagerAttr "create_order"
      pure .createOrder
    else
      pure .drop

/-! ### src/core/order_manager.py — sell placement on a filled BUY -/

/-- The attribute names `OrderManager.__init__` assigns on `self`
(src/core/order_manager.py lines 85-108). `profit_calculator` is not among
them, so `self.profit_calculator` raises `AttributeError`. -/
def orderManagerInitAttrs : List String :=
  ["logger", "price_manager", "state_manager", "should_run", "threads",
   "monitored_orders", "position_alerts", "state_transitions",
   "last_state_update", "shutdown_in_progress"]

/-- Python attribute access on an `OrderManager` instance as `__init__`
left it. -/
def orderManagerAttr (name : String) : Except String Unit :=
  if orderManagerInitAttrs.contains name then .ok ()
  else .error ("AttributeError: OrderManager object has no attribute " ++ name)

/-- An exchange acknowledgement as `price_manager.place_limit_order` would
return it: `none` models a call that failed (returned a falsy response), and
`orderId := none` models a response carrying no order id. -/
structure ExchangeResponse where
  orderId : Option String
deriving DecidableEq, Repr

/-- Embedding of `OrderManager._handle_filled_order(order)`
(src/core/order_manager.py lines 699-785), returning the list of SELL rows
committed to the database and the error logged by the `except` handler, if
any. The BUY branch first evaluates `self.profit_calculator` (line 717);
`__init__` never assigns that attribute, so the lookup raises, the handler
rolls back the savepoint, and nothing is persisted — before
`place_limit_order` is ever called. Were the attribute present, the call
would still fail: no object in the repository defines a method
`calculate_sell_price` (the module function is `calculate_min_sell_price`).
The `response` argument is the acknowledgement the exchange would have
produced; the source consults it (lines 742-762) only on the unreachable
success path, adding the SELL row exactly when it carries an `orderId`. -/
def handle_filled_order (order : Order) (response : Option ExchangeResponse) :
    List Order × Option String :=
  if order.side = "BUY" then
    match orderManagerAttr "profit_calculator" with
    | .error e => ([], some e)
    | .ok _ =>
      -- unreachable: `profit_calculator` is never assigned, and
      -- `calculate_sell_price` does not exist either
      ([], some "AttributeError: calculate_sell_price")
  else
    ([], none)

/-! ### src/core/price_manager.py — reconnection with backoff -/

/-- The connection-state attributes of `PriceManager` that
`_handle_reconnection` reads and writes (src/core/price_manager.py lines
59-63). -/
structure PriceManagerState where
  reconnection_attempts : ℕ
  reconnection_start_time : Option ℚ
  using_rest_fallback : Bool
  should_run : Bool
deriving DecidableEq, Repr

/-- What a call of `_handle_reconnection` does after updating the state. -/
inductive ReconnectOutcome where
  /-- `_handle_timeout_shutdown()` ran: state persisted, sockets closed,
  `sys.exit(1)`; the method returns False. -/
  | fatalShutdown
  /-- `time.sleep(delay)` then return True (retry `connect()`). -/
  | retryAfter (delay : ℚ)
deriving DecidableEq, Repr

/-- Embedding of `PriceManager._handle_reconnection()`
(src/core/price_manager.py lines 547-579) at wall-clock time `now`. On the
first attempt the start timer is (re)set and the REST fallback started; the
15-minute ceiling check compares `now - reconnection_start_time` strictly
against `WEBSOCKET_RECONNECT_TIMEOUT`; otherwise the delay is
`WEBSOCKET_INITIAL_RETRY_DELAY * 2 ** attempts` and the counter increments.
Subtracting from a `None` start time would raise `TypeError`. -/
def handle_reconnection (now : ℚ) (st : PriceManagerState) :
    Except String (PriceManagerState × ReconnectOutcome) :=
  let st1 :=
    if st.reconnection_attempts = 0 then
      { st with reconnection_start_time := some now, using_rest_fallback := true }
    else st
  match st1.reconnection_start_time with
  | none => .error "TypeError: unsupported operand type"
  | some start =>
    if now - start > WEBSOCKET_RECONNECT_TIMEOUT then
      .ok ({ st1 with should_run := false }, .fatalShutdown)
    else
      .ok ({ st1 with reconnection_attempts := st1.reconnection_attempts + 1 },
        .retryAfter (WEBSOCKET_INITIAL_RETRY_DELAY * 2 ^ st1.reconnection_attempts))

/-! ### src/core/price_manager.py — execution-report normalization -/

/-- Embedding of the `status_mapping` dict and the
`status_mapping.get(data['X'], 'REJECTED')` lookup of
`PriceManager._handle_execution_report` (src/core/price_manager.py lines
414-427): a chain of key comparisons with default `"REJECTED"`. -/
def map_execution_status (x : String) : String :=
  if x = "NEW" then "OPEN"
  else if x = "PARTIALLY_FILLED" then "PARTIALLY_FILLED"
  else if x = "FILLED" then "FILLED"
  else if x = "CANCELED" then "CANCELLED"
  else if x = "REJECTED" then "REJECTED"
  else if x = "EXPIRED" then "EXPIRED"
  else if x = "PENDING_CANCEL" then "CANCELLED"
  else "REJECTED"

/-- The raw execution-report fields `_handle_execution_report` requires
(src/core/price_manager.py line 409): a missing field makes the handler log
and return without delivering anything. -/
structure ExecReport where
  i : Option String
  X : Option String
  q : Option ℚ
  z : Option ℚ
  p : Option ℚ
  l : Option ℚ
  L : Option ℚ
deriving DecidableEq, Repr

/-- The normalized order-update record delivered to every registered order
callback (src/core/price_manager.py lines 434-456). -/
structure OrderUpdateMsg where
  order_id : String
  status : String
  quantity : ℚ
  filled : ℚ
  price : ℚ
  last_filled_qty : ℚ
  last_filled_price : ℚ
deriving DecidableEq, Repr

/-- Embedding of `PriceManager._handle_execution_report(data)`
(src/core/price_manager.py lines 400-467): `none` when a required field is
missing (nothing is delivered), otherwise the update record handed to the
order callbacks. -/
def handle_execution_report (d : ExecReport) : Option OrderUpdateMsg := do
  let i ← d.i
  let X ← d.X
  let q ← d.q
  let z ← d.z
  let p ← d.p
  let l ← d.l
  let L ← d.L
  pure { order_id := i, status := map_execution_status X, quantity := q,
         filled := z, price := p, last_filled_qty := l, last_filled_price := L }

end SwingTrading

namespace SwingTrading

/-- C1: for every configured `min_profit_pct` (≥ 0) and every positive
`buy_price` and `quantity`, composing `calculate_net_profit` with
`calculate_min_sell_price` yields a net profit of at least
`quantity * buy_price * (min_profit_pct / 100)`: selling at the computed
minimum sell price nets at least the minimum profit after the 0.1% fee is
paid on both legs (over exact rational arithmetic, where the claim's
floating-point epsilon is not needed). -/
theorem profit_guarantee (mpp p q : ℚ) (hm : 0 ≤ mpp) (hp : 0 < p) (hq : 0 < q) :
    ∃ s r, calculate_min_sell_price mpp p q = .ok s ∧
      calculate_net_profit p s q = .ok r ∧
      q * p * (mpp / 100) ≤ r := by
  have hp' : ¬ p ≤ 0 := not_le.mpr hp
  have hq' : ¬ q ≤ 0 := not_le.mpr hq
  have hden : q * (1 - 1/1000 : ℚ) ≠ 0 := by
    have : (0:ℚ) < q * (1 - 1/1000) := by nlinarith
    exact ne_of_gt this
  have hApos : (0:ℚ) < p * q + p * q * (1/1000) + p * q * (mpp / 100) := by
    have h1 : (0:ℚ) < p * q := mul_pos hp hq
    have h2 : (0:ℚ) ≤ p * q * (mpp / 100) := by positivity
    nlinarith
  refine ⟨(p * q + p * q * (1/1000) + p * q * (mpp / 100)) / (q * (1 - 1/1000)),
          p * q * (mpp / 100), ?_, ?_, ?_⟩
  · simp only [calculate_min_sell_price, if_neg hp', if_neg hq']
    have hsell : (p * q + p * q * (1/1000) + p * q * (mpp / 100)) / (q * (1 - 1/1000)) * q *
        (1 - 1/1000) = p * q + p * q * (1/1000) + p * q * (mpp / 100) := by
      field_simp
      ring
    rw [if_neg]
    rw [hsell]
    exact lt_irrefl _
  · have hspos : (0:ℚ) <
        (p * q + p * q * (1/1000) + p * q * (mpp / 100)) / (q * (1 - 1/1000)) := by
      apply div_pos hApos
      nlinarith
    have hcond : ¬ (p ≤ 0 ∨
        (p * q + p * q * (1/1000) + p * q * (mpp / 100)) / (q * (1 - 1/1000)) ≤ 0 ∨
        q ≤ 0) := by
      push_neg
      exact ⟨hp, hspos, hq⟩
    simp only [calculate_net_profit, if_neg hcond]
    have hsell : (p * q + p * q * (1/1000) + p * q * (mpp / 100)) / (q * (1 - 1/1000)) * q *
        (1 - 1/1000) = p * q + p * q * (1/1000) + p * q * (mpp / 100) := by
      field_simp
      ring
    congr 1
    nlinarith [hsell]
  · exact le_of_eq (by ring)

/-- Witness for C1 at the spec's example scenario: buy 100 units at price 1
with the default configured minimum profit percentage 0.3. -/
theorem profit_guarantee_witness :
    ∃ s r, calculate_min_sell_price (3/10) 1 100 = .ok s ∧
      calculate_net_profit 1 s 100 = .ok r ∧
      100 * 1 * ((3:ℚ)/10 / 100) ≤ r :=
  profit_guarantee (3/10) 1 100 (by norm_num) (by norm_num) (by norm_num)

/-- C2: for every terminal status (FILLED, CANCELLED, REJECTED, EXPIRED) and
every target status, neither status-transition validation accepts the
transition: `OrderManager._validate_state_transition` returns False (no
`OrderTransition` pair has a terminal source), and the validator module's
`_is_valid_status_transition` raises `AttributeError` while building its
transition table, so it never returns True either. -/
theorem terminal_transition_closure (t s : String)
    (ht : t ∈ ["FILLED", "CANCELLED", "REJECTED", "EXPIRED"]) :
    validate_state_transition t s = false ∧
      is_valid_status_transition t s = Except.error "AttributeError: NEW" := by
  constructor
  · fin_cases ht <;>
      simp [validate_state_transition, OrderTransition]
  · rfl

/-- Witness for C2: the terminal source FILLED against target OPEN. -/
theorem terminal_transition_closure_witness :
    validate_state_transition "FILLED" "OPEN" = false ∧
      is_valid_status_transition "FILLED" "OPEN" =
        Except.error "AttributeError: NEW" :=
  terminal_transition_closure "FILLED" "OPEN" (by simp)

/-- C3 (code bug): `validate_order_update` never reaches its fill-quantity
checks. Its first step calls `_is_valid_status_transition`, which raises
`AttributeError` (the transition table names the non-existent enum members
`OrderStatus.NEW` and `OrderStatus.CANCELED`), so a fill event whose
cumulative quantity 30 is lower than the previously recorded 50 is not
answered with the documented `(False, "Fill quantity cannot decrease")`
tuple — the call raises instead, for every input. -/
theorem validate_order_update_attribute_error :
    validate_order_update
      { binance_order_id := "12345", symbol := "TRUMPUSDC", side := "BUY",
        price := 1, quantity := 100, status := "OPEN",
        filled_quantity := some 50 }
      "PARTIALLY_FILLED" (some 30) none =
      Except.error "AttributeError: NEW" := by
  rfl

/-- C4 (code bug): with any non-empty map of existing SELL orders,
`validate_sell_order_placement` raises `AttributeError` while summing the
non-cancelled quantities (the filter clause names the non-existent enum
member `OrderStatus.CANCELED`), instead of returning the documented
`(False, QuantityExceeded)` tuple. Shown at an overrun input: lot filled
100, one existing OPEN SELL of 50, requested 60. -/
theorem validate_sell_order_placement_attribute_error :
    validate_sell_order_placement
      { binance_order_id := "12345", symbol := "TRUMPUSDC", side := "BUY",
        price := 1, quantity := 100, status := "FILLED",
        filled_quantity := some 100 }
      60 1
      [{ binance_order_id := "67890", symbol := "TRUMPUSDC", side := "SELL",
         price := 2, quantity := 50, status := "OPEN",
         filled_quantity := some 0 }] =
      Except.error "AttributeError: CANCELED" := by
  rfl

/-- C5 (code bug): handling a filled BUY order never persists a SELL row at
all — not even when a successful exchange acknowledgement carrying an order
id would be available — because `_handle_filled_order` reads the
never-assigned attribute `self.profit_calculator` before the exchange call,
raises, and rolls back: the committed row list is empty and the error is
logged. -/
theorem handle_filled_order_no_sell_persisted :
    handle_filled_order
      { binance_order_id := "12345", symbol := "TRUMPUSDC", side := "BUY",
        price := 1, quantity := 100, status := "FILLED",
        filled_quantity := some 100 }
      (some { orderId := some "789" }) =
      ([], some "AttributeError: OrderManager object has no attribute profit_calculator") := by
  rfl

/-- C6 (code bug): a same-status order event is never accepted as a no-op
acknowledgement. `_process_order_update` raises `AttributeError` at its very
first line for every event — the `StateManager` wired in by `main.py`
defines no `get_order_by_id` (nor the `create_order`/`update_order` the
later branches would reach) — so the caller rolls the savepoint back and
logs the event as an error rather than continuing, for every stored order
and every update, the same-status case included. The claim describes the
dispatch's evident intent (the transition guard runs only when the statuses
differ), but the program never gets there. -/
theorem same_status_update_errors (stored : Option Order) (d : OrderDetails) :
    process_order_update stored d =
      Except.error
        "AttributeError: StateManager object has no attribute get_order_by_id" := by
  rfl

/-- C7 (code bug): the `OrderTransition` enum has no `OPEN → EXPIRED` entry,
so `_validate_state_transition("OPEN", "EXPIRED")` returns False even though
the other four transitions out of OPEN are accepted — yet
`models.OrderStatus` defines EXPIRED, the execution-report normalization
delivers EXPIRED events, and `cleanup_completed_orders` treats EXPIRED as a
completed status, so an expired order can never leave OPEN. -/
theorem open_to_expired_rejected :
    validate_state_transition "OPEN" "EXPIRED" = false ∧
    validate_state_transition "OPEN" "PARTIALLY_FILLED" = true ∧
    validate_state_transition "OPEN" "FILLED" = true ∧
    validate_state_transition "OPEN" "CANCELLED" = true ∧
    validate_state_transition "OPEN" "REJECTED" = true := by
  decide

/-- C8: while the elapsed time since the first failure is within the
ceiling, `_handle_reconnection` sleeps exactly `initial_delay * 2 ^
attempts` and increments the attempt counter (so successive delays double);
the fatal shutdown path is taken exactly when the elapsed time exceeds the
ceiling — and a first call (attempt count 0) resets the timer and can never
be fatal. -/
theorem backoff_and_fatal_ceiling (now s0 : ℚ) (st : PriceManagerState)
    (hs : st.reconnection_start_time = some s0)
    (ha : st.reconnection_attempts ≠ 0) :
    (now - s0 ≤ WEBSOCKET_RECONNECT_TIMEOUT →
      handle_reconnection now st =
        .ok ({ st with reconnection_attempts := st.reconnection_attempts + 1 },
             .retryAfter (WEBSOCKET_INITIAL_RETRY_DELAY *
               2 ^ st.reconnection_attempts))) ∧
    (WEBSOCKET_RECONNECT_TIMEOUT < now - s0 →
      handle_reconnection now st =
        .ok ({ st with should_run := false }, .fatalShutdown)) ∧
    (∀ st0 : PriceManagerState, st0.reconnection_attempts = 0 →
      handle_reconnection now st0 =
        .ok ({ st0 with
                 reconnection_attempts := st0.reconnection_attempts + 1,
                 reconnection_start_time := some now,
                 using_rest_fallback := true },
             .retryAfter (WEBSOCKET_INITIAL_RETRY_DELAY *
               2 ^ st0.reconnection_attempts))) := by
  refine ⟨?_, ?_, ?_⟩
  · intro h
    simp only [handle_reconnection, if_neg ha, hs]
    rw [if_neg (not_lt.mpr h)]
  · intro h
    simp only [handle_reconnection, if_neg ha, hs]
    rw [if_pos h]
  · intro st0 h0
    simp only [handle_reconnection, h0, if_pos rfl, reduceIte, sub_self]
    rw [if_neg (by norm_num [WEBSOCKET_RECONNECT_TIMEOUT])]

/-- Witness for C8: a fourth consecutive attempt 10 seconds after the first
failure sleeps 1 * 2 ^ 3 = 8 seconds and increments the counter to 4. -/
theorem backoff_and_fatal_ceiling_witness :
    handle_reconnection 10
      { reconnection_attempts := 3, reconnection_start_time := some 0,
        using_rest_fallback := true, should_run := true } =
      .ok ({ reconnection_attempts := 4, reconnection_start_time := some 0,
             using_rest_fallback := true, should_run := true },
           .retryAfter 8) := by
  have h := (backoff_and_fatal_ceiling 10 0
      { reconnection_attempts := 3, reconnection_start_time := some 0,
        using_rest_fallback := true, should_run := true }
      rfl (by decide)).1
    (by norm_num [WEBSOCKET_RECONNECT_TIMEOUT])
  simpa [WEBSOCKET_INITIAL_RETRY_DELAY] using h

/-- Helper for C9: the status mapping only produces internal vocabulary. -/
theorem map_execution_status_mem (x : String) :
    map_execution_status x ∈
      ["OPEN", "PARTIALLY_FILLED", "FILLED", "CANCELLED", "REJECTED", "EXPIRED"] := by
  unfold map_execution_status
  split_ifs <;> simp

/-- Helper for C9: a status outside the mapping's keys gets the default. -/
theorem map_execution_status_default (x : String)
    (hx : x ∉ ["NEW", "PARTIALLY_FILLED", "FILLED", "CANCELED", "REJECTED",
               "EXPIRED", "PENDING_CANCEL"]) :
    map_execution_status x = "REJECTED" := by
  simp only [List.mem_cons, List.mem_singleton, not_or] at hx
  obtain ⟨h1, h2, h3, h4, h5, h6, h7, -⟩ := hx
  simp [map_execution_status, h1, h2, h3, h4, h5, h6, h7]

/-- C9: every order update that `_handle_execution_report` delivers to the
order callbacks carries a status normalized into the internal vocabulary,
and an exchange-native status outside the known mapping is normalized to
REJECTED. -/
theorem execution_status_normalized (d : ExecReport) (u : OrderUpdateMsg)
    (h : handle_execution_report d = some u) :
    u.status ∈
      ["OPEN", "PARTIALLY_FILLED", "FILLED", "CANCELLED", "REJECTED", "EXPIRED"] ∧
    (∀ x, d.X = some x →
      x ∉ ["NEW", "PARTIALLY_FILLED", "FILLED", "CANCELED", "REJECTED",
           "EXPIRED", "PENDING_CANCEL"] →
      u.status = "REJECTED") := by
  obtain ⟨i, X, q, z, p, l, L⟩ := d
  cases i <;> cases X <;> cases q <;> cases z <;> cases p <;> cases l <;>
    cases L <;> simp only [handle_execution_report, Option.bind_eq_bind,
      Option.none_bind, Option.some_bind, Option.pure_def,
      reduceCtorEq] at h
  rename_i i X q z p l L
  obtain rfl := Option.some_injective _ h
  refine ⟨map_execution_status_mem X, ?_⟩
  intro x hx hmem
  obtain rfl := Option.some_injective _ hx
  exact map_execution_status_default X hmem

/-- Witness for C9: the unmapped exchange status PENDING_NEW is delivered as
REJECTED. -/
theorem execution_status_normalized_witness :
    ({ order_id := "9", status := "REJECTED", quantity := 1, filled := 0,
       price := 1, last_filled_qty := 0, last_filled_price := 0 } :
      OrderUpdateMsg).status ∈
      ["OPEN", "PARTIALLY_FILLED", "FILLED", "CANCELLED", "REJECTED", "EXPIRED"] ∧
    ({ order_id := "9", status := "REJECTED", quantity := 1, filled := 0,
       price := 1, last_filled_qty := 0, last_filled_price := 0 } :
      OrderUpdateMsg).status = "REJECTED" := by
  have h := execution_status_normalized
    { i := some "9", X := some "PENDING_NEW", q := some 1, z := some 0,
      p := some 1, l := some 0, L := some 0 }
    { order_id := "9", status := "REJECTED", quantity := 1, filled := 0,
      price := 1, last_filled_qty := 0, last_filled_price := 0 }
    (by rfl)
  exact ⟨h.1, h.2 "PENDING_NEW" rfl (by simp)⟩

/-- C10: the maximum-order-notional cap is exclusive at the boundary — a
price and quantity whose product equals `MAX_SELL_VALUE_USDC` exactly pass
both `validate_order_size` and `validate_new_order` with no error, and
`validate_order_size` rejects on size only when the product is strictly
greater than the cap. -/
theorem max_notional_boundary (price quantity : ℚ)
    (hp : 0 < price) (hq : 0 < quantity)
    (hpq : price * quantity = MAX_SELL_VALUE_USDC) :
    validate_order_size price quantity = (true, none) ∧
    validate_new_order TRADING_SYMBOL "BUY" quantity price none = (true, none) ∧
    (∀ p q : ℚ, 0 < p → 0 < q → MAX_SELL_VALUE_USDC < p * q →
      validate_order_size p q =
        (false, some "Order value exceeds maximum allowed")) := by
  refine ⟨?_, ?_, ?_⟩
  · simp [validate_order_size, hp.not_le, hq.not_le, hpq, lt_irrefl]
  · simp [validate_new_order, hp.not_le, hq.not_le, hpq, lt_irrefl]
  · intro p q hp' hq' h
    simp [validate_order_size, hp'.not_le, hq'.not_le, h]

/-- Witness for C10: price 1, quantity 100, product exactly the default cap
of 100 USDC. -/
theorem max_notional_boundary_witness :
    validate_order_size 1 100 = (true, none) ∧
    validate_new_order TRADING_SYMBOL "BUY" 100 1 none = (true, none) := by
  have h := max_notional_boundary 1 100 (by norm_num) (by norm_num)
    (by norm_num [MAX_SELL_VALUE_USDC])
  exact ⟨h.1, h.2.1⟩

end SwingTrading
